import Mathlib

/-!
Shallow embedding of `collector/collector.go` from the ecobee-exporter
repository: a Prometheus collector that fetches thermostat data from the
Ecobee API and republishes it as labeled gauge samples.

Modelling conventions:
  - Go `float64` values are modelled as `ℚ` (all arithmetic the collector
    performs — division of small integers by 10 — is exact).
  - The Prometheus channel is modelled as an ordered `List Sample`; the
    logrus sink as an ordered `List LogEntry`.
  - The ecobee API client (external library `go-ecobee`) is modelled as a
    record of two functions returning `Except String _`, mirroring the two
    `(result, error)` returning calls the collector makes.
  - Wall-clock time is not modelled; `Collect` takes the elapsed fetch
    duration (in seconds, as reported by Go's monotonic clock) as an
    explicit parameter `elapsed`.
-/

/-- One structured log line sent to the logrus sink: the collector uses
`log.Error`/`log.Errorf` (error level) and `log.Infof` (info level). -/
inductive LogEntry where
  | error (msg : String)
  | info (msg : String)
  deriving DecidableEq, Repr

/-- Model of `*prometheus.Desc` as built by `prometheus.NewDesc`: the
fully-qualified metric name, the help text, and the ordered variable label
names.  The collector always passes `nil` constLabels, so they are omitted. -/
structure Desc where
  fqName : String
  help : String
  variableLabels : List String
  deriving DecidableEq, Repr

/-- Model of one constant metric sent to the Prometheus channel by
`prometheus.MustNewConstMetric(desc, prometheus.GaugeValue, value, labels...)`. -/
structure Sample where
  desc : Desc
  value : ℚ
  labels : List String
  deriving DecidableEq, Repr

/-- Go: `type descs string` — the metric-name prefix. -/
abbrev descs := String

/-- Go: `func (d descs) new(fqName, help string, variableLabels []string)`.
Builds a descriptor whose fully-qualified name is
`fmt.Sprintf("%s_%s", d, fqName)`. -/
def descs.new (d : descs) (fqName help : String) (variableLabels : List String) : Desc :=
  ⟨d ++ "_" ++ fqName, help, variableLabels⟩

/-- The non-panicking condition of `prometheus.MustNewConstMetric`: the
number of supplied label values must equal the number of variable label
names declared by the descriptor (otherwise the constructor's error is
turned into a panic). -/
def mustNewConstMetricOk (d : Desc) (labelValues : List String) : Bool :=
  labelValues.length == d.variableLabels.length

/-- Go-ecobee `ecobee.Selection`, restricted to the fields this program
sets; fields left at their Go zero value are passed explicitly. -/
structure Selection where
  SelectionType : String
  SelectionMatch : String
  IncludeSensors : Bool
  IncludeRuntime : Bool
  IncludeSettings : Bool
  IncludeEquipmentStatus : Bool
  deriving DecidableEq, Repr

/-- Go-ecobee `ecobee.Runtime`, restricted to the fields the collector
reads.  The temperature fields are raw integers in tenths of a degree. -/
structure Runtime where
  Connected : Bool
  ActualTemperature : Int
  DesiredCool : Int
  DesiredHeat : Int
  deriving DecidableEq, Repr

/-- Go-ecobee `ecobee.Settings`, restricted to the field the collector reads. -/
structure Settings where
  HvacMode : String
  deriving DecidableEq, Repr

/-- Go-ecobee `ecobee.RemoteSensorCapability`: a typed reading with a raw
string value. -/
structure RemoteSensorCapability where
  «Type» : String
  Value : String
  deriving DecidableEq, Repr

/-- Go-ecobee `ecobee.RemoteSensor`, restricted to the fields the collector
reads. -/
structure RemoteSensor where
  ID : String
  Name : String
  «Type» : String
  InUse : Bool
  Capability : List RemoteSensorCapability
  deriving DecidableEq, Repr

/-- Go-ecobee `ecobee.Thermostat`, restricted to the fields the collector
reads. -/
structure Thermostat where
  Identifier : String
  Name : String
  Runtime : Runtime
  Settings : Settings
  RemoteSensors : List RemoteSensor
  deriving DecidableEq, Repr

/-- Go-ecobee `ecobee.EquipmentStatus`, restricted to the flags the
collector reads. -/
structure EquipmentStatus where
  Fan : Bool
  CompCool1 : Bool
  HeatPump : Bool
  AuxHeat1 : Bool
  deriving DecidableEq, Repr

/-- Go-ecobee `ecobee.ThermostatSummary`, restricted to the fields the
collector reads. -/
structure ThermostatSummary where
  Identifier : String
  Name : String
  EquipmentStatus : EquipmentStatus
  deriving DecidableEq, Repr

/-- Model of `*ecobee.Client`: the two API operations the collector
consumes.  Each either returns structured records or fails with an error
(modelled as its message). -/
structure Client where
  getThermostats : Selection → Except String (List Thermostat)
  getThermostatSummary : Selection → Except String (List ThermostatSummary)

/-- Numeric value of a list of decimal digit characters. -/
def digitsToNat (l : List Char) : Nat :=
  l.foldl (fun a c => a * 10 + (c.toNat - 48)) 0

/-- Modelled from the Go standard library: `strconv.ParseFloat(s, 64)`,
restricted to plain decimal notation (optional sign, integer digits,
optional fractional part), which covers the values the Ecobee API reports.
Returns `none` where `strconv.ParseFloat` returns a non-nil error. -/
def parseFloat (s : String) : Option ℚ :=
  let (neg, rest) :=
    match s.toList with
    | '-' :: r => (true, r)
    | '+' :: r => (false, r)
    | r => (false, r)
  let intPart := rest.takeWhile Char.isDigit
  let rest2 := rest.dropWhile Char.isDigit
  let mk (v : ℚ) : Option ℚ := some (if neg then -v else v)
  match rest2 with
  | [] =>
    if intPart.isEmpty then none
    else mk (digitsToNat intPart)
  | '.' :: fracRest =>
    let fracPart := fracRest.takeWhile Char.isDigit
    if (fracRest.dropWhile Char.isDigit).isEmpty = false then none
    else if intPart.isEmpty && fracPart.isEmpty then none
    else mk ((digitsToNat intPart : ℚ) + (digitsToNat fracPart : ℚ) / 10 ^ fracPart.length)
  | _ => none

/-- Go: `type eCollector struct` — the API client handle plus the eleven
metric descriptors built at construction time. -/
structure eCollector where
  client : Client
  fetchTime : Desc
  actualTemperature : Desc
  targetTemperatureMin : Desc
  targetTemperatureMax : Desc
  temperature : Desc
  humidity : Desc
  occupancy : Desc
  inUse : Desc
  currentHvacMode : Desc
  fanStatus : Desc
  mode : Desc

/-- Go: `func NewEcobeeCollector(c *ecobee.Client, metricPrefix string)`.
Builds the fixed descriptor set for the given prefix; never fails. -/
def NewEcobeeCollector (c : Client) (metricPrefix : String) : eCollector :=
  let d : descs := metricPrefix
  let runtime := ["thermostat_id", "thermostat_name"]
  let sensor := runtime ++ ["sensor_id", "sensor_name", "sensor_type"]
  { client := c
    fetchTime := d.new "fetch_time" "elapsed time fetching data via Ecobee API" []
    actualTemperature := d.new "actual_temperature" "thermostat-averaged current temperature" runtime
    targetTemperatureMax := d.new "target_temperature_max" "maximum temperature for thermostat to maintain" runtime
    targetTemperatureMin := d.new "target_temperature_min" "minimum temperature for thermostat to maintain" runtime
    temperature := d.new "temperature" "temperature reported by a sensor in degrees" sensor
    humidity := d.new "humidity" "humidity reported by a sensor in percent" sensor
    occupancy := d.new "occupancy" "occupancy reported by a sensor (0 or 1)" sensor
    inUse := d.new "in_use" "is sensor being used in thermostat calculations (0 or 1)" sensor
    currentHvacMode := d.new "currenthvacmode" "current hvac mode of thermostat" ["thermostat_id", "thermostat_name", "current_hvac_mode"]
    fanStatus := d.new "fan_status" "current status of the fan" ["thermostat_id", "thermostat_name"]
    mode := d.new "mode" "current operating mode" ["thermostat_id", "thermostat_name", "mode"] }

/-- Go: `func (c *eCollector) Describe(ch chan<- *prometheus.Desc)` — dumps
all eleven metric descriptors, in program order, performing no data fetch. -/
def Describe (c : eCollector) : List Desc :=
  [c.fetchTime, c.actualTemperature, c.targetTemperatureMax, c.targetTemperatureMin,
   c.temperature, c.humidity, c.occupancy, c.inUse, c.currentHvacMode, c.fanStatus, c.mode]

/-- The metric-name suffixes of the eleven descriptors, in `Describe` order. -/
def metricSuffixes : List String :=
  ["fetch_time", "actual_temperature", "target_temperature_max", "target_temperature_min",
   "temperature", "humidity", "occupancy", "in_use", "currenthvacmode", "fan_status", "mode"]

/-- The selection passed to the first API call (`GetThermostats`):
`{SelectionType: "registered", IncludeSensors, IncludeRuntime, IncludeSettings: true}`. -/
def thermostatsSelection : Selection :=
  ⟨"registered", "", true, true, true, false⟩

/-- The selection passed to the second API call (`GetThermostatSummary`):
`{SelectionType: "thermostats", SelectionMatch: strings.Join(ids, ","), IncludeEquipmentStatus: true}`. -/
def summarySelection (m : String) : Selection :=
  ⟨"thermostats", m, false, false, false, true⟩

/-- The result of one collection cycle: the samples sent to the Prometheus
channel, in order, and the log lines emitted, in order.  `Collect` is a
total function into this type: no error is ever raised to the caller. -/
structure CollectResult where
  samples : List Sample
  logs : List LogEntry
  deriving DecidableEq, Repr

/-- Body of the `switch sc.Type` dispatch inside the sensor loop of
`Collect` (lines 210-244 of collector.go): samples and log lines produced
for one capability `sc` of a sensor whose label values are `sFields`. -/
def capabilityOut (c : eCollector) (sFields : List String) (sc : RemoteSensorCapability) :
    List Sample × List LogEntry :=
  if sc.«Type» = "temperature" then
    match parseFloat sc.Value with
    | some v => ([⟨c.temperature, v / 10, sFields⟩], [])
    | none => ([], [.error ("strconv.ParseFloat: parsing " ++ sc.Value)])
  else if sc.«Type» = "humidity" then
    match parseFloat sc.Value with
    | some v => ([⟨c.humidity, v, sFields⟩], [])
    | none => ([], [.error ("strconv.ParseFloat: parsing " ++ sc.Value)])
  else if sc.«Type» = "occupancy" then
    if sc.Value = "true" then ([⟨c.occupancy, 1, sFields⟩], [])
    else if sc.Value = "false" then ([⟨c.occupancy, 0, sFields⟩], [])
    else ([], [.error ("unknown sensor occupancy value " ++ sc.Value)])
  else ([], [.info ("ignoring sensor capability " ++ sc.«Type»)])

/-- Body of the `for _, s := range t.RemoteSensors` loop of `Collect`
(lines 201-245): the `inUse` sample followed by the capability output for
one sensor `s` of a thermostat whose label values are `tFields`. -/
def sensorOut (c : eCollector) (tFields : List String) (s : RemoteSensor) :
    List Sample × List LogEntry :=
  let sFields := tFields ++ [s.ID, s.Name, s.«Type»]
  let inUse : ℚ := if s.InUse then 1 else 0
  let caps := s.Capability.map (capabilityOut c sFields)
  (⟨c.inUse, inUse, sFields⟩ :: (caps.map Prod.fst).flatten, (caps.map Prod.snd).flatten)

/-- Body of the `for _, t := range tt` loop of `Collect` (lines 185-246):
the four runtime samples (only when `t.Runtime.Connected`) followed by the
per-sensor output, for one thermostat `t`. -/
def thermostatOut (c : eCollector) (t : Thermostat) : List Sample × List LogEntry :=
  let tFields := [t.Identifier, t.Name]
  let runtimeSamples : List Sample :=
    if t.Runtime.Connected then
      [⟨c.actualTemperature, (t.Runtime.ActualTemperature : ℚ) / 10, tFields⟩,
       ⟨c.targetTemperatureMax, (t.Runtime.DesiredCool : ℚ) / 10, tFields⟩,
       ⟨c.targetTemperatureMin, (t.Runtime.DesiredHeat : ℚ) / 10, tFields⟩,
       ⟨c.currentHvacMode, 0, [t.Identifier, t.Name, t.Settings.HvacMode]⟩]
    else []
  let sensors := t.RemoteSensors.map (sensorOut c tFields)
  (runtimeSamples ++ (sensors.map Prod.fst).flatten, (sensors.map Prod.snd).flatten)

/-- Body of the `for _, t := range ts` loop of `Collect` (lines 155-184):
the `fanStatus` sample and the three `mode` samples for one summary record. -/
def summaryOut (c : eCollector) (t : ThermostatSummary) : List Sample :=
  let fanStatus : ℚ := if t.EquipmentStatus.Fan then 1 else 0
  let coolStatus : ℚ := if t.EquipmentStatus.CompCool1 then 1 else 0
  let heatStatus : ℚ := if t.EquipmentStatus.HeatPump then 1 else 0
  let auxStatus : ℚ := if t.EquipmentStatus.AuxHeat1 then 1 else 0
  [⟨c.fanStatus, fanStatus, [t.Identifier, t.Name]⟩,
   ⟨c.mode, coolStatus, [t.Identifier, t.Name, "cool"]⟩,
   ⟨c.mode, heatStatus, [t.Identifier, t.Name, "heat"]⟩,
   ⟨c.mode, auxStatus, [t.Identifier, t.Name, "aux"]⟩]

/-- Go: `func (c *eCollector) Collect(ch chan<- prometheus.Metric)`
(lines 128-247).  One collection cycle: fetch the thermostats; on error,
log and return with nothing sent.  Fetch the summary for the comma-joined
identifiers; on error, log and return with nothing sent.  Only then send
the `fetchTime` sample (value: `elapsed`, the seconds between the `start`
timestamp and the post-fetch `time.Now()`), the per-summary samples and
the per-thermostat samples. -/
def Collect (c : eCollector) (elapsed : ℚ) : CollectResult :=
  match c.client.getThermostats thermostatsSelection with
  | .error e => ⟨[], [.error e]⟩
  | .ok tt =>
    let ids := tt.map Thermostat.Identifier
    match c.client.getThermostatSummary (summarySelection (String.intercalate "," ids)) with
    | .error e => ⟨[], [.error e]⟩
    | .ok ts =>
      let thermOut := tt.map (thermostatOut c)
      ⟨⟨c.fetchTime, elapsed, []⟩ :: (ts.map (summaryOut c)).flatten ++ (thermOut.map Prod.fst).flatten,
       (thermOut.map Prod.snd).flatten⟩

/-- A concrete remote sensor used as a test fixture. -/
def sampleSensor : RemoteSensor :=
  ⟨"rs:100", "Bedroom", "ecobee3_remote_sensor", true,
   [⟨"temperature", "725"⟩, ⟨"humidity", "41"⟩, ⟨"occupancy", "true"⟩]⟩

/-- A concrete connected thermostat used as a test fixture. -/
def sampleThermostat : Thermostat :=
  ⟨"519", "Home", ⟨true, 705, 740, 680⟩, ⟨"heat"⟩, [sampleSensor]⟩

/-- A concrete thermostat summary used as a test fixture. -/
def sampleSummary : ThermostatSummary :=
  ⟨"519", "Home", ⟨true, true, false, false⟩⟩

/-- A client for which both API calls succeed. -/
def okClient : Client :=
  ⟨fun _ => .ok [sampleThermostat], fun _ => .ok [sampleSummary]⟩

/-- A client for which both API calls succeed with empty results. -/
def emptyClient : Client :=
  ⟨fun _ => .ok [], fun _ => .ok []⟩

/-- A client for which the first API call (GetThermostats) fails. -/
def failFirstClient : Client :=
  ⟨fun _ => .error "auth failure", fun _ => .ok []⟩

/-- A client for which the first API call succeeds and the second
(GetThermostatSummary) fails. -/
def failSecondClient : Client :=
  ⟨fun _ => .ok [sampleThermostat], fun _ => .error "timeout"⟩

/-! ## Structural lemmas about `Collect` -/

theorem Collect_eq_of_err1 (c : eCollector) (elapsed : ℚ) (e : String)
    (h : c.client.getThermostats thermostatsSelection = .error e) :
    Collect c elapsed = ⟨[], [.error e]⟩ := by
  unfold Collect
  rw [h]

theorem Collect_eq_of_err2 (c : eCollector) (elapsed : ℚ) (tt : List Thermostat) (e : String)
    (h1 : c.client.getThermostats thermostatsSelection = .ok tt)
    (h2 : c.client.getThermostatSummary
      (summarySelection (String.intercalate "," (tt.map Thermostat.Identifier))) = .error e) :
    Collect c elapsed = ⟨[], [.error e]⟩ := by
  unfold Collect
  rw [h1]
  simp only [h2]

theorem Collect_eq_of_ok (c : eCollector) (elapsed : ℚ)
    (tt : List Thermostat) (ts : List ThermostatSummary)
    (h1 : c.client.getThermostats thermostatsSelection = .ok tt)
    (h2 : c.client.getThermostatSummary
      (summarySelection (String.intercalate "," (tt.map Thermostat.Identifier))) = .ok ts) :
    Collect c elapsed =
      ⟨⟨c.fetchTime, elapsed, []⟩ :: (ts.map (summaryOut c)).flatten
         ++ ((tt.map (thermostatOut c)).map Prod.fst).flatten,
       ((tt.map (thermostatOut c)).map Prod.snd).flatten⟩ := by
  unfold Collect
  rw [h1]
  simp only [h2]

theorem flatten_map_decomp {α β : Type} (f : α → List β) (l : List α) (a : α) (h : a ∈ l) :
    ∃ pre post, (l.map f).flatten = pre ++ f a ++ post := by
  obtain ⟨s, t, rfl⟩ := List.append_of_mem h
  refine ⟨(s.map f).flatten, (t.map f).flatten, ?_⟩
  simp

theorem collect_samples_block (c : eCollector) (elapsed : ℚ)
    (tt : List Thermostat) (ts : List ThermostatSummary) (t : Thermostat)
    (h1 : c.client.getThermostats thermostatsSelection = .ok tt)
    (h2 : c.client.getThermostatSummary
      (summarySelection (String.intercalate "," (tt.map Thermostat.Identifier))) = .ok ts)
    (ht : t ∈ tt) :
    ∃ pre post, (Collect c elapsed).samples = pre ++ (thermostatOut c t).1 ++ post := by
  rw [Collect_eq_of_ok c elapsed tt ts h1 h2]
  obtain ⟨pre, post, hd⟩ := flatten_map_decomp (fun x => (thermostatOut c x).1) tt t ht
  refine ⟨⟨c.fetchTime, elapsed, []⟩ :: (ts.map (summaryOut c)).flatten ++ pre, post, ?_⟩
  simp only [List.map_map]
  have h : (tt.map (Prod.fst ∘ thermostatOut c)) = tt.map fun x => (thermostatOut c x).1 := rfl
  rw [h, hd]
  simp [List.append_assoc]

theorem collect_summary_block (c : eCollector) (elapsed : ℚ)
    (tt : List Thermostat) (ts : List ThermostatSummary) (t : ThermostatSummary)
    (h1 : c.client.getThermostats thermostatsSelection = .ok tt)
    (h2 : c.client.getThermostatSummary
      (summarySelection (String.intercalate "," (tt.map Thermostat.Identifier))) = .ok ts)
    (ht : t ∈ ts) :
    ∃ pre post, (Collect c elapsed).samples = pre ++ summaryOut c t ++ post := by
  rw [Collect_eq_of_ok c elapsed tt ts h1 h2]
  obtain ⟨pre, post, hd⟩ := flatten_map_decomp (summaryOut c) ts t ht
  refine ⟨⟨c.fetchTime, elapsed, []⟩ :: pre, post
    ++ ((tt.map (thermostatOut c)).map Prod.fst).flatten, ?_⟩
  rw [hd]
  simp [List.append_assoc]

theorem capabilityOut_desc (c : eCollector) (sFields : List String)
    (sc : RemoteSensorCapability) :
    ∀ s ∈ (capabilityOut c sFields sc).1,
      (s.desc = c.temperature ∨ s.desc = c.humidity ∨ s.desc = c.occupancy) ∧
      s.labels = sFields := by
  intro s hs
  unfold capabilityOut at hs
  by_cases h1 : sc.«Type» = "temperature"
  · rw [if_pos h1] at hs
    rcases hp : parseFloat sc.Value with _ | v <;> rw [hp] at hs <;>
      simp only [List.mem_singleton, List.not_mem_nil] at hs
    subst hs
    exact ⟨Or.inl rfl, rfl⟩
  · rw [if_neg h1] at hs
    by_cases h2 : sc.«Type» = "humidity"
    · rw [if_pos h2] at hs
      rcases hp : parseFloat sc.Value with _ | v <;> rw [hp] at hs <;>
        simp only [List.mem_singleton, List.not_mem_nil] at hs
      subst hs
      exact ⟨Or.inr (Or.inl rfl), rfl⟩
    · rw [if_neg h2] at hs
      by_cases h3 : sc.«Type» = "occupancy"
      · rw [if_pos h3] at hs
        by_cases hv1 : sc.Value = "true"
        · rw [if_pos hv1] at hs
          simp only [List.mem_singleton] at hs
          subst hs
          exact ⟨Or.inr (Or.inr rfl), rfl⟩
        · rw [if_neg hv1] at hs
          by_cases hv2 : sc.Value = "false"
          · rw [if_pos hv2] at hs
            simp only [List.mem_singleton] at hs
            subst hs
            exact ⟨Or.inr (Or.inr rfl), rfl⟩
          · rw [if_neg hv2] at hs
            simp only [List.not_mem_nil] at hs
      · rw [if_neg h3] at hs
        simp only [List.not_mem_nil] at hs

theorem sensorOut_mem_structure (c : eCollector) (tFields : List String) (r : RemoteSensor) :
    ∀ s ∈ (sensorOut c tFields r).1,
      s = ⟨c.inUse, if r.InUse then 1 else 0, tFields ++ [r.ID, r.Name, r.«Type»]⟩ ∨
      ∃ sc ∈ r.Capability,
        s ∈ (capabilityOut c (tFields ++ [r.ID, r.Name, r.«Type»]) sc).1 := by
  intro s hs
  unfold sensorOut at hs
  rcases List.mem_cons.mp hs with h | h
  · exact Or.inl h
  · obtain ⟨l, hl, hsl⟩ := List.mem_flatten.mp h
    obtain ⟨pair, hpair, rfl⟩ := List.mem_map.mp hl
    obtain ⟨sc, hsc, rfl⟩ := List.mem_map.mp hpair
    exact Or.inr ⟨sc, hsc, hsl⟩

theorem sensorOut_desc (c : eCollector) (tFields : List String) (r : RemoteSensor) :
    ∀ s ∈ (sensorOut c tFields r).1,
      (s.desc = c.inUse ∨ s.desc = c.temperature ∨ s.desc = c.humidity ∨ s.desc = c.occupancy) ∧
      s.labels = tFields ++ [r.ID, r.Name, r.«Type»] := by
  intro s hs
  rcases sensorOut_mem_structure c tFields r s hs with h | ⟨sc, _, hsc⟩
  · subst h
    exact ⟨Or.inl rfl, rfl⟩
  · obtain ⟨hd, hl⟩ := capabilityOut_desc c _ sc s hsc
    exact ⟨Or.inr hd, hl⟩

theorem desc_ne_of_labels_ne (d e : Desc) (h : d.variableLabels ≠ e.variableLabels) :
    d ≠ e := fun he => h (he ▸ rfl)

theorem thermostatOut_disconnected (c : eCollector) (t : Thermostat)
    (hc : t.Runtime.Connected = false) :
    (thermostatOut c t).1
      = ((t.RemoteSensors.map (sensorOut c [t.Identifier, t.Name])).map Prod.fst).flatten := by
  simp [thermostatOut, hc]

theorem sensorOut_mem_thermostatOut (c : eCollector) (t : Thermostat) (r : RemoteSensor)
    (hr : r ∈ t.RemoteSensors) (s : Sample)
    (hs : s ∈ (sensorOut c [t.Identifier, t.Name] r).1) :
    s ∈ (thermostatOut c t).1 := by
  unfold thermostatOut
  apply List.mem_append_right
  exact List.mem_flatten.mpr
    ⟨(sensorOut c [t.Identifier, t.Name] r).1,
     List.mem_map_of_mem Prod.fst (List.mem_map_of_mem (sensorOut c [t.Identifier, t.Name]) hr),
     hs⟩

theorem capabilityOut_ok (cl : Client) (p : String) (sFields : List String)
    (h : sFields.length = 5) (sc : RemoteSensorCapability) :
    ∀ s ∈ (capabilityOut (NewEcobeeCollector cl p) sFields sc).1,
      mustNewConstMetricOk s.desc s.labels = true := by
  intro s hs
  obtain ⟨hd, hl⟩ := capabilityOut_desc _ _ _ s hs
  rcases hd with h' | h' | h' <;>
    simp [mustNewConstMetricOk, hl, h', h, NewEcobeeCollector, descs.new]

theorem sensorOut_ok (cl : Client) (p : String) (tFields : List String)
    (h : tFields.length = 2) (r : RemoteSensor) :
    ∀ s ∈ (sensorOut (NewEcobeeCollector cl p) tFields r).1,
      mustNewConstMetricOk s.desc s.labels = true := by
  intro s hs
  rcases sensorOut_mem_structure _ tFields r s hs with h' | ⟨sc, _, hsc⟩
  · subst h'
    simp [mustNewConstMetricOk, NewEcobeeCollector, descs.new, h]
  · exact capabilityOut_ok cl p _ (by simp [h]) sc s hsc

theorem summaryOut_ok (cl : Client) (p : String) (t : ThermostatSummary) :
    ∀ s ∈ summaryOut (NewEcobeeCollector cl p) t,
      mustNewConstMetricOk s.desc s.labels = true := by
  intro s hs
  simp only [summaryOut, List.mem_cons, List.not_mem_nil, or_false] at hs
  rcases hs with rfl | rfl | rfl | rfl <;>
    simp [mustNewConstMetricOk, NewEcobeeCollector, descs.new]

theorem thermostatOut_ok (cl : Client) (p : String) (t : Thermostat) :
    ∀ s ∈ (thermostatOut (NewEcobeeCollector cl p) t).1,
      mustNewConstMetricOk s.desc s.labels = true := by
  intro s hs
  unfold thermostatOut at hs
  rcases List.mem_append.mp hs with h | h
  · cases hcon : t.Runtime.Connected <;> rw [hcon] at h
    · simp only [Bool.false_eq_true, if_false, List.not_mem_nil] at h
    · simp only [if_true, List.mem_cons, List.not_mem_nil, or_false] at h
      rcases h with rfl | rfl | rfl | rfl <;>
        simp [mustNewConstMetricOk, NewEcobeeCollector, descs.new]
  · obtain ⟨l, hl, hsl⟩ := List.mem_flatten.mp h
    obtain ⟨pair, hpair, rfl⟩ := List.mem_map.mp hl
    obtain ⟨r, _, rfl⟩ := List.mem_map.mp hpair
    exact sensorOut_ok cl p [t.Identifier, t.Name] rfl r s hsl

/-! ## Claim theorems -/

/-- C2: if the first API call (fetch thermostats) fails, `Collect` emits
exactly zero samples; the caller observes no raised error (the cycle just
terminates early, leaving one error-level log line). -/
theorem c2_first_call_fails_zero_samples (c : eCollector) (elapsed : ℚ) (e : String)
    (h : c.client.getThermostats thermostatsSelection = .error e) :
    (Collect c elapsed).samples = [] ∧ (Collect c elapsed).logs = [.error e] := by
  rw [Collect_eq_of_err1 c elapsed e h]
  exact ⟨rfl, rfl⟩

/-- Witness for C2 at a concrete failing client. -/
theorem c2_first_call_fails_zero_samples_witness :
    (Collect (NewEcobeeCollector failFirstClient "ecobee") 1).samples = [] ∧
    (Collect (NewEcobeeCollector failFirstClient "ecobee") 1).logs = [.error "auth failure"] :=
  c2_first_call_fails_zero_samples (NewEcobeeCollector failFirstClient "ecobee") 1 "auth failure" rfl

/-- Counterexample to C1 as stated: at a concrete client whose first call
succeeds (returning one thermostat) and whose second call fails, `Collect`
emits zero samples, not one — the `fetchTime` sample is only sent after the
summary call has already succeeded (collector.go line 154 comes after the
error return at lines 149-152). -/
theorem c1_counterexample :
    (NewEcobeeCollector failSecondClient "ecobee").client.getThermostats thermostatsSelection
      = .ok [sampleThermostat] ∧
    (NewEcobeeCollector failSecondClient "ecobee").client.getThermostatSummary
      (summarySelection "519") = .error "timeout" ∧
    ¬ (Collect (NewEcobeeCollector failSecondClient "ecobee") 1).samples.length = 1 :=
  ⟨rfl, rfl, by decide⟩

/-- C1 (amended): if the first API call succeeds and the second API call
(fetch thermostat summary) fails, `Collect` emits exactly zero samples —
in particular no `fetchTime` sample, because that sample is sent only
after both calls have succeeded — and terminates the cycle with one
error-level log line. -/
theorem c1_second_call_fails_zero_samples (c : eCollector) (elapsed : ℚ)
    (tt : List Thermostat) (e : String)
    (h1 : c.client.getThermostats thermostatsSelection = .ok tt)
    (h2 : c.client.getThermostatSummary
      (summarySelection (String.intercalate "," (tt.map Thermostat.Identifier))) = .error e) :
    (Collect c elapsed).samples = [] ∧ (Collect c elapsed).logs = [.error e] := by
  rw [Collect_eq_of_err2 c elapsed tt e h1 h2]
  exact ⟨rfl, rfl⟩

/-- Witness for the amended C1 at a concrete client. -/
theorem c1_second_call_fails_zero_samples_witness :
    (Collect (NewEcobeeCollector failSecondClient "ecobee") 1).samples = [] ∧
    (Collect (NewEcobeeCollector failSecondClient "ecobee") 1).logs = [.error "timeout"] :=
  c1_second_call_fails_zero_samples (NewEcobeeCollector failSecondClient "ecobee") 1
    [sampleThermostat] "timeout" rfl rfl

/-- C10: when the first API call succeeds with an empty thermostat list,
the comma-join of the identifiers is the empty string, so the second call
is issued with an empty selection match; if that call also succeeds (with
the empty summary list the API returns for an empty match), the cycle
emits exactly one sample, `fetchTime`, and given a non-negative elapsed
duration every emitted sample value is non-negative. -/
theorem c10_empty_thermostat_list (c : eCollector) (elapsed : ℚ) (h0 : 0 ≤ elapsed)
    (h1 : c.client.getThermostats thermostatsSelection = .ok [])
    (h2 : c.client.getThermostatSummary (summarySelection "") = .ok []) :
    String.intercalate "," (([] : List Thermostat).map Thermostat.Identifier) = "" ∧
    (Collect c elapsed).samples = [⟨c.fetchTime, elapsed, []⟩] ∧
    ∀ s ∈ (Collect c elapsed).samples, 0 ≤ s.value := by
  have h2' : c.client.getThermostatSummary
      (summarySelection (String.intercalate "," (([] : List Thermostat).map Thermostat.Identifier)))
      = .ok [] := h2
  rw [Collect_eq_of_ok c elapsed [] [] h1 h2']
  refine ⟨rfl, rfl, ?_⟩
  intro s hs
  simp only [List.map_nil, List.flatten_nil, List.append_nil, List.mem_singleton] at hs
  rw [hs]
  exact h0

/-- Witness for C10 at a concrete client returning empty lists. -/
theorem c10_empty_thermostat_list_witness :
    String.intercalate "," (([] : List Thermostat).map Thermostat.Identifier) = "" ∧
    (Collect (NewEcobeeCollector emptyClient "ecobee") 1).samples
      = [⟨(NewEcobeeCollector emptyClient "ecobee").fetchTime, 1, []⟩] ∧
    ∀ s ∈ (Collect (NewEcobeeCollector emptyClient "ecobee") 1).samples, 0 ≤ s.value :=
  c10_empty_thermostat_list (NewEcobeeCollector emptyClient "ecobee") 1
    (by norm_num) rfl rfl

/-- C3: for every thermostat record whose connectivity flag is set, the
per-thermostat output starts with exactly the four runtime samples —
`actualTemperature` = raw/10, `targetTemperatureMax` = DesiredCool/10,
`targetTemperatureMin` = DesiredHeat/10, each labeled [id, name], and a
`currentHvacMode` sample of value exactly 0 with the HVAC mode string as
third label — followed by the sensor output, and this block appears
contiguously in the samples `Collect` emits. -/
theorem c3_connected_runtime_samples (c : eCollector) (elapsed : ℚ)
    (tt : List Thermostat) (ts : List ThermostatSummary) (t : Thermostat)
    (h1 : c.client.getThermostats thermostatsSelection = .ok tt)
    (h2 : c.client.getThermostatSummary
      (summarySelection (String.intercalate "," (tt.map Thermostat.Identifier))) = .ok ts)
    (ht : t ∈ tt) (hc : t.Runtime.Connected = true) :
    (thermostatOut c t).1 =
      [⟨c.actualTemperature, (t.Runtime.ActualTemperature : ℚ) / 10, [t.Identifier, t.Name]⟩,
       ⟨c.targetTemperatureMax, (t.Runtime.DesiredCool : ℚ) / 10, [t.Identifier, t.Name]⟩,
       ⟨c.targetTemperatureMin, (t.Runtime.DesiredHeat : ℚ) / 10, [t.Identifier, t.Name]⟩,
       ⟨c.currentHvacMode, 0, [t.Identifier, t.Name, t.Settings.HvacMode]⟩]
      ++ ((t.RemoteSensors.map (sensorOut c [t.Identifier, t.Name])).map Prod.fst).flatten ∧
    ∃ pre post, (Collect c elapsed).samples = pre ++ (thermostatOut c t).1 ++ post := by
  constructor
  · simp only [thermostatOut, hc, if_true]
  · exact collect_samples_block c elapsed tt ts t h1 h2 ht

/-- Witness for C3 at a concrete connected thermostat. -/
theorem c3_connected_runtime_samples_witness :
    (thermostatOut (NewEcobeeCollector okClient "ecobee") sampleThermostat).1 =
      [⟨(NewEcobeeCollector okClient "ecobee").actualTemperature, (705 : ℚ) / 10, ["519", "Home"]⟩,
       ⟨(NewEcobeeCollector okClient "ecobee").targetTemperatureMax, (740 : ℚ) / 10, ["519", "Home"]⟩,
       ⟨(NewEcobeeCollector okClient "ecobee").targetTemperatureMin, (680 : ℚ) / 10, ["519", "Home"]⟩,
       ⟨(NewEcobeeCollector okClient "ecobee").currentHvacMode, 0, ["519", "Home", "heat"]⟩]
      ++ (([sampleSensor].map (sensorOut (NewEcobeeCollector okClient "ecobee") ["519", "Home"])).map Prod.fst).flatten ∧
    ∃ pre post, (Collect (NewEcobeeCollector okClient "ecobee") 1).samples
      = pre ++ (thermostatOut (NewEcobeeCollector okClient "ecobee") sampleThermostat).1 ++ post :=
  c3_connected_runtime_samples (NewEcobeeCollector okClient "ecobee") 1
    [sampleThermostat] [sampleSummary] sampleThermostat rfl rfl (by decide) rfl

/-- C7: for every thermostat summary record, the per-record output is
exactly one `fanStatus` sample (1 if the fan flag is set, else 0) labeled
[id, name] and exactly three `mode` samples labeled [id, name, mode] with
mode strings "cool", "heat", "aux", valued from the CompCool1, HeatPump
and AuxHeat1 flags respectively; this block of four appears contiguously
in the samples `Collect` emits. -/
theorem c7_summary_samples (c : eCollector) (elapsed : ℚ)
    (tt : List Thermostat) (ts : List ThermostatSummary) (t : ThermostatSummary)
    (h1 : c.client.getThermostats thermostatsSelection = .ok tt)
    (h2 : c.client.getThermostatSummary
      (summarySelection (String.intercalate "," (tt.map Thermostat.Identifier))) = .ok ts)
    (ht : t ∈ ts) :
    summaryOut c t =
      [⟨c.fanStatus, if t.EquipmentStatus.Fan then 1 else 0, [t.Identifier, t.Name]⟩,
       ⟨c.mode, if t.EquipmentStatus.CompCool1 then 1 else 0, [t.Identifier, t.Name, "cool"]⟩,
       ⟨c.mode, if t.EquipmentStatus.HeatPump then 1 else 0, [t.Identifier, t.Name, "heat"]⟩,
       ⟨c.mode, if t.EquipmentStatus.AuxHeat1 then 1 else 0, [t.Identifier, t.Name, "aux"]⟩] ∧
    ∃ pre post, (Collect c elapsed).samples = pre ++ summaryOut c t ++ post :=
  ⟨rfl, collect_summary_block c elapsed tt ts t h1 h2 ht⟩

/-- Witness for C7 at the concrete equipment status
{fan: true, compCool1: true, heatPump: false, auxHeat1: false}: fanStatus 1
and mode samples cool 1, heat 0, aux 0. -/
theorem c7_summary_samples_witness :
    summaryOut (NewEcobeeCollector okClient "ecobee") sampleSummary =
      [⟨(NewEcobeeCollector okClient "ecobee").fanStatus, 1, ["519", "Home"]⟩,
       ⟨(NewEcobeeCollector okClient "ecobee").mode, 1, ["519", "Home", "cool"]⟩,
       ⟨(NewEcobeeCollector okClient "ecobee").mode, 0, ["519", "Home", "heat"]⟩,
       ⟨(NewEcobeeCollector okClient "ecobee").mode, 0, ["519", "Home", "aux"]⟩] ∧
    ∃ pre post, (Collect (NewEcobeeCollector okClient "ecobee") 1).samples
      = pre ++ summaryOut (NewEcobeeCollector okClient "ecobee") sampleSummary ++ post := by
  have h := c7_summary_samples (NewEcobeeCollector okClient "ecobee") 1
    [sampleThermostat] [sampleSummary] sampleSummary rfl rfl (by decide)
  exact ⟨by rw [h.1]; rfl, h.2⟩

/-- C5: a capability of type "temperature" whose raw value parses yields
one `temperature` sample valued parsed/10; a capability of type "humidity"
whose raw value parses yields one `humidity` sample valued at the parsed
value unscaled; on parse failure no sample is emitted and exactly one
error is logged; and every capability of a sensor is processed
independently (a failure skips only its own sample, the remaining
capabilities still contribute their output). -/
theorem c5_temperature_humidity_parse (c : eCollector) (sFields : List String)
    (sc : RemoteSensorCapability) :
    (sc.«Type» = "temperature" →
      (∀ v, parseFloat sc.Value = some v →
        capabilityOut c sFields sc = ([⟨c.temperature, v / 10, sFields⟩], [])) ∧
      (parseFloat sc.Value = none →
        (capabilityOut c sFields sc).1 = [] ∧
        ∃ m, (capabilityOut c sFields sc).2 = [.error m])) ∧
    (sc.«Type» = "humidity" →
      (∀ v, parseFloat sc.Value = some v →
        capabilityOut c sFields sc = ([⟨c.humidity, v, sFields⟩], [])) ∧
      (parseFloat sc.Value = none →
        (capabilityOut c sFields sc).1 = [] ∧
        ∃ m, (capabilityOut c sFields sc).2 = [.error m])) ∧
    (∀ (tFields : List String) (s : RemoteSensor),
      (sensorOut c tFields s).1 =
        ⟨c.inUse, if s.InUse then 1 else 0, tFields ++ [s.ID, s.Name, s.«Type»]⟩ ::
          (s.Capability.map fun x =>
            (capabilityOut c (tFields ++ [s.ID, s.Name, s.«Type»]) x).1).flatten) := by
  refine ⟨fun hty => ⟨fun v hv => ?_, fun hv => ?_⟩,
          fun hty => ⟨fun v hv => ?_, fun hv => ?_⟩,
          fun tFields s => ?_⟩
  · simp [capabilityOut, hty, hv]
  · exact ⟨by simp [capabilityOut, hty, hv],
      "strconv.ParseFloat: parsing " ++ sc.Value, by simp [capabilityOut, hty, hv]⟩
  · simp [capabilityOut, hty, hv]
  · exact ⟨by simp [capabilityOut, hty, hv],
      "strconv.ParseFloat: parsing " ++ sc.Value, by simp [capabilityOut, hty, hv]⟩
  · simp only [sensorOut, List.map_map]
    rfl

/-- Witness for C5: value "725" parses and yields a temperature sample of
72.5; value "abc" fails to parse, yielding no sample and one error log;
value "41" yields a humidity sample of 41 unscaled. -/
theorem c5_temperature_humidity_parse_witness :
    parseFloat "725" = some 725 ∧
    capabilityOut (NewEcobeeCollector okClient "ecobee")
        ["519", "Home", "rs:100", "Bedroom", "ecobee3_remote_sensor"] ⟨"temperature", "725"⟩
      = ([⟨(NewEcobeeCollector okClient "ecobee").temperature, (725 : ℚ) / 10,
          ["519", "Home", "rs:100", "Bedroom", "ecobee3_remote_sensor"]⟩], []) ∧
    parseFloat "abc" = none ∧
    (capabilityOut (NewEcobeeCollector okClient "ecobee")
        ["519", "Home", "rs:100", "Bedroom", "ecobee3_remote_sensor"] ⟨"temperature", "abc"⟩).1 = [] ∧
    (∃ m, (capabilityOut (NewEcobeeCollector okClient "ecobee")
        ["519", "Home", "rs:100", "Bedroom", "ecobee3_remote_sensor"] ⟨"temperature", "abc"⟩).2
      = [.error m]) ∧
    parseFloat "41" = some 41 ∧
    capabilityOut (NewEcobeeCollector okClient "ecobee")
        ["519", "Home", "rs:100", "Bedroom", "ecobee3_remote_sensor"] ⟨"humidity", "41"⟩
      = ([⟨(NewEcobeeCollector okClient "ecobee").humidity, (41 : ℚ),
          ["519", "Home", "rs:100", "Bedroom", "ecobee3_remote_sensor"]⟩], []) := by
  have h1 := (c5_temperature_humidity_parse (NewEcobeeCollector okClient "ecobee")
    ["519", "Home", "rs:100", "Bedroom", "ecobee3_remote_sensor"] ⟨"temperature", "725"⟩).1 rfl
  have h2 := (c5_temperature_humidity_parse (NewEcobeeCollector okClient "ecobee")
    ["519", "Home", "rs:100", "Bedroom", "ecobee3_remote_sensor"] ⟨"temperature", "abc"⟩).1 rfl
  have h3 := (c5_temperature_humidity_parse (NewEcobeeCollector okClient "ecobee")
    ["519", "Home", "rs:100", "Bedroom", "ecobee3_remote_sensor"] ⟨"humidity", "41"⟩).2.1 rfl
  exact ⟨by decide, h1.1 725 (by decide), by decide, (h2.2 (by decide)).1,
    (h2.2 (by decide)).2, by decide, h3.1 41 (by decide)⟩

/-- C6: a capability of type "occupancy" yields an `occupancy` sample of
value 1 when the raw value is the literal string "true" and of value 0
when it is "false"; for any other value no sample is emitted and exactly
one error is logged. -/
theorem c6_occupancy (c : eCollector) (sFields : List String)
    (sc : RemoteSensorCapability) (hty : sc.«Type» = "occupancy") :
    (sc.Value = "true" →
      capabilityOut c sFields sc = ([⟨c.occupancy, 1, sFields⟩], [])) ∧
    (sc.Value = "false" →
      capabilityOut c sFields sc = ([⟨c.occupancy, 0, sFields⟩], [])) ∧
    (sc.Value ≠ "true" → sc.Value ≠ "false" →
      (capabilityOut c sFields sc).1 = [] ∧
      (capabilityOut c sFields sc).2
        = [.error ("unknown sensor occupancy value " ++ sc.Value)]) := by
  refine ⟨fun hv => ?_, fun hv => ?_, fun hv1 hv2 => ⟨?_, ?_⟩⟩
  · simp [capabilityOut, hty, hv]
  · simp [capabilityOut, hty, hv]
  · simp [capabilityOut, hty, hv1, hv2]
  · simp [capabilityOut, hty, hv1, hv2]

/-- Witness for C6 at the concrete values "true", "false" and "maybe". -/
theorem c6_occupancy_witness :
    capabilityOut (NewEcobeeCollector okClient "ecobee")
        ["519", "Home", "rs:100", "Bedroom", "ecobee3_remote_sensor"] ⟨"occupancy", "true"⟩
      = ([⟨(NewEcobeeCollector okClient "ecobee").occupancy, 1,
          ["519", "Home", "rs:100", "Bedroom", "ecobee3_remote_sensor"]⟩], []) ∧
    capabilityOut (NewEcobeeCollector okClient "ecobee")
        ["519", "Home", "rs:100", "Bedroom", "ecobee3_remote_sensor"] ⟨"occupancy", "false"⟩
      = ([⟨(NewEcobeeCollector okClient "ecobee").occupancy, 0,
          ["519", "Home", "rs:100", "Bedroom", "ecobee3_remote_sensor"]⟩], []) ∧
    (capabilityOut (NewEcobeeCollector okClient "ecobee")
        ["519", "Home", "rs:100", "Bedroom", "ecobee3_remote_sensor"] ⟨"occupancy", "maybe"⟩).1 = [] ∧
    (capabilityOut (NewEcobeeCollector okClient "ecobee")
        ["519", "Home", "rs:100", "Bedroom", "ecobee3_remote_sensor"] ⟨"occupancy", "maybe"⟩).2
      = [.error ("unknown sensor occupancy value " ++ "maybe")] := by
  have h1 := c6_occupancy (NewEcobeeCollector okClient "ecobee")
    ["519", "Home", "rs:100", "Bedroom", "ecobee3_remote_sensor"] ⟨"occupancy", "true"⟩ rfl
  have h2 := c6_occupancy (NewEcobeeCollector okClient "ecobee")
    ["519", "Home", "rs:100", "Bedroom", "ecobee3_remote_sensor"] ⟨"occupancy", "false"⟩ rfl
  have h3 := c6_occupancy (NewEcobeeCollector okClient "ecobee")
    ["519", "Home", "rs:100", "Bedroom", "ecobee3_remote_sensor"] ⟨"occupancy", "maybe"⟩ rfl
  exact ⟨h1.1 rfl, h2.2.1 rfl, (h3.2.2 (by decide) (by decide)).1, (h3.2.2 (by decide) (by decide)).2⟩

theorem string_append_cancel_right (a b c : String) (h : a ++ c = b ++ c) : a = b := by
  apply String.ext
  have h2 : a.data ++ c.data = b.data ++ c.data := by
    rw [← String.data_append, ← String.data_append, h]
  exact List.append_cancel_right h2

/-- Counterexample to C8 as stated: registries built with the distinct
prefixes "ecobee" and "ecobee_actual" do share a descriptor name, because
the suffix "actual_temperature" under the first prefix and the suffix
"temperature" under the second both produce "ecobee_actual_temperature". -/
theorem c8_counterexample :
    ("ecobee" : String) ≠ "ecobee_actual" ∧
    (NewEcobeeCollector okClient "ecobee").actualTemperature
      ∈ Describe (NewEcobeeCollector okClient "ecobee") ∧
    (NewEcobeeCollector okClient "ecobee_actual").temperature
      ∈ Describe (NewEcobeeCollector okClient "ecobee_actual") ∧
    (NewEcobeeCollector okClient "ecobee").actualTemperature.fqName
      = (NewEcobeeCollector okClient "ecobee_actual").temperature.fqName :=
  ⟨by decide, by decide, by decide, rfl⟩

/-- C8 (amended): for every prefix the registry constructor is a total
function; each descriptor's fully-qualified name is the prefix, an
underscore, and the metric suffix; `Describe` yields exactly 11
descriptors without performing any data fetch (it is a pure function of
the registry alone); and for any one metric suffix, registries built with
distinct prefixes give it distinct names (full cross-suffix disjointness
fails, e.g. for the prefixes "ecobee" and "ecobee_actual"). -/
theorem c8_registry (cl : Client) (p : String) :
    (Describe (NewEcobeeCollector cl p)).map Desc.fqName
      = metricSuffixes.map (fun s => p ++ "_" ++ s) ∧
    (Describe (NewEcobeeCollector cl p)).length = 11 ∧
    ∀ p1 p2 s : String, p1 ≠ p2 → p1 ++ "_" ++ s ≠ p2 ++ "_" ++ s := by
  refine ⟨rfl, rfl, fun p1 p2 s hne he => hne ?_⟩
  have h1 : p1 ++ "_" = p2 ++ "_" := string_append_cancel_right _ _ _ he
  exact string_append_cancel_right _ _ _ h1

/-- Witness for C8 at the concrete prefix "ecobee" and the concrete
distinct prefixes "a" and "b". -/
theorem c8_registry_witness :
    (Describe (NewEcobeeCollector okClient "ecobee")).map Desc.fqName
      = metricSuffixes.map (fun s => "ecobee" ++ "_" ++ s) ∧
    (Describe (NewEcobeeCollector okClient "ecobee")).length = 11 ∧
    ("a" : String) ++ "_" ++ "x" ≠ ("b" : String) ++ "_" ++ "x" :=
  ⟨(c8_registry okClient "ecobee").1, (c8_registry okClient "ecobee").2.1,
   (c8_registry okClient "ecobee").2.2 "a" "b" "x" (by decide)⟩

/-- C4: for a thermostat whose connectivity flag is unset, the
per-thermostat output consists solely of the sensor output: no emitted
sample for that thermostat carries the actualTemperature,
targetTemperatureMax, targetTemperatureMin or currentHvacMode descriptor,
yet every remote sensor still contributes its inUse sample and all its
capability-derived samples, and this per-thermostat block still appears
in the samples `Collect` emits. -/
theorem c4_disconnected_thermostat (cl : Client) (p : String) (elapsed : ℚ)
    (tt : List Thermostat) (ts : List ThermostatSummary) (t : Thermostat)
    (h1 : (NewEcobeeCollector cl p).client.getThermostats thermostatsSelection = .ok tt)
    (h2 : (NewEcobeeCollector cl p).client.getThermostatSummary
      (summarySelection (String.intercalate "," (tt.map Thermostat.Identifier))) = .ok ts)
    (ht : t ∈ tt) (hc : t.Runtime.Connected = false) :
    (thermostatOut (NewEcobeeCollector cl p) t).1
      = ((t.RemoteSensors.map (sensorOut (NewEcobeeCollector cl p) [t.Identifier, t.Name])).map
          Prod.fst).flatten ∧
    (∀ s ∈ (thermostatOut (NewEcobeeCollector cl p) t).1,
      s.desc ≠ (NewEcobeeCollector cl p).actualTemperature ∧
      s.desc ≠ (NewEcobeeCollector cl p).targetTemperatureMax ∧
      s.desc ≠ (NewEcobeeCollector cl p).targetTemperatureMin ∧
      s.desc ≠ (NewEcobeeCollector cl p).currentHvacMode) ∧
    (∀ r ∈ t.RemoteSensors,
      (⟨(NewEcobeeCollector cl p).inUse, if r.InUse then 1 else 0,
        [t.Identifier, t.Name] ++ [r.ID, r.Name, r.«Type»]⟩ : Sample)
        ∈ (thermostatOut (NewEcobeeCollector cl p) t).1) ∧
    (∀ r ∈ t.RemoteSensors, ∀ sc ∈ r.Capability,
      ∀ s ∈ (capabilityOut (NewEcobeeCollector cl p)
          ([t.Identifier, t.Name] ++ [r.ID, r.Name, r.«Type»]) sc).1,
        s ∈ (thermostatOut (NewEcobeeCollector cl p) t).1) ∧
    ∃ pre post, (Collect (NewEcobeeCollector cl p) elapsed).samples
      = pre ++ (thermostatOut (NewEcobeeCollector cl p) t).1 ++ post := by
  refine ⟨thermostatOut_disconnected _ t hc, ?_, ?_, ?_,
    collect_samples_block _ elapsed tt ts t h1 h2 ht⟩
  · intro s hs
    rw [thermostatOut_disconnected _ t hc] at hs
    obtain ⟨l, hl, hsl⟩ := List.mem_flatten.mp hs
    obtain ⟨pair, hpair, rfl⟩ := List.mem_map.mp hl
    obtain ⟨r, _, rfl⟩ := List.mem_map.mp hpair
    obtain ⟨hd, _⟩ := sensorOut_desc (NewEcobeeCollector cl p) [t.Identifier, t.Name] r s hsl
    rcases hd with h | h | h | h <;> rw [h] <;>
      exact ⟨desc_ne_of_labels_ne _ _ (by simp [NewEcobeeCollector, descs.new]),
        desc_ne_of_labels_ne _ _ (by simp [NewEcobeeCollector, descs.new]),
        desc_ne_of_labels_ne _ _ (by simp [NewEcobeeCollector, descs.new]),
        desc_ne_of_labels_ne _ _ (by simp [NewEcobeeCollector, descs.new])⟩
  · intro r hr
    refine sensorOut_mem_thermostatOut _ t r hr _ ?_
    unfold sensorOut
    exact List.mem_cons_self _ _
  · intro r hr sc hsc s hs
    refine sensorOut_mem_thermostatOut _ t r hr s ?_
    unfold sensorOut
    apply List.mem_cons_of_mem
    exact List.mem_flatten.mpr
      ⟨(capabilityOut (NewEcobeeCollector cl p) ([t.Identifier, t.Name] ++ [r.ID, r.Name, r.«Type»]) sc).1,
       List.mem_map_of_mem Prod.fst
         (List.mem_map_of_mem
           (capabilityOut (NewEcobeeCollector cl p) ([t.Identifier, t.Name] ++ [r.ID, r.Name, r.«Type»])) hsc),
       hs⟩

/-- A concrete disconnected thermostat cannot be declared here (the file
keeps definitions before theorems), so the witness for C4 reuses
`sampleSensor` under a thermostat record with the connectivity flag unset,
built inline. -/
theorem c4_disconnected_thermostat_witness :
    (thermostatOut (NewEcobeeCollector (Client.mk
        (fun _ => .ok [⟨"520", "Cabin", ⟨false, 705, 740, 680⟩, ⟨"heat"⟩, [sampleSensor]⟩])
        (fun _ => .ok [])) "ecobee")
      ⟨"520", "Cabin", ⟨false, 705, 740, 680⟩, ⟨"heat"⟩, [sampleSensor]⟩).1
      = (([sampleSensor].map (sensorOut (NewEcobeeCollector (Client.mk
            (fun _ => .ok [⟨"520", "Cabin", ⟨false, 705, 740, 680⟩, ⟨"heat"⟩, [sampleSensor]⟩])
            (fun _ => .ok [])) "ecobee") ["520", "Cabin"])).map Prod.fst).flatten ∧
    (⟨(NewEcobeeCollector (Client.mk
        (fun _ => .ok [⟨"520", "Cabin", ⟨false, 705, 740, 680⟩, ⟨"heat"⟩, [sampleSensor]⟩])
        (fun _ => .ok [])) "ecobee").inUse, 1,
      ["520", "Cabin"] ++ ["rs:100", "Bedroom", "ecobee3_remote_sensor"]⟩ : Sample)
      ∈ (thermostatOut (NewEcobeeCollector (Client.mk
          (fun _ => .ok [⟨"520", "Cabin", ⟨false, 705, 740, 680⟩, ⟨"heat"⟩, [sampleSensor]⟩])
          (fun _ => .ok [])) "ecobee")
        ⟨"520", "Cabin", ⟨false, 705, 740, 680⟩, ⟨"heat"⟩, [sampleSensor]⟩).1 := by
  have h := c4_disconnected_thermostat (Client.mk
      (fun _ => .ok [⟨"520", "Cabin", ⟨false, 705, 740, 680⟩, ⟨"heat"⟩, [sampleSensor]⟩])
      (fun _ => .ok [])) "ecobee" 1
    [⟨"520", "Cabin", ⟨false, 705, 740, 680⟩, ⟨"heat"⟩, [sampleSensor]⟩] []
    ⟨"520", "Cabin", ⟨false, 705, 740, 680⟩, ⟨"heat"⟩, [sampleSensor]⟩
    rfl rfl (List.mem_singleton.mpr rfl) rfl
  exact ⟨h.1, h.2.2.1 sampleSensor (List.mem_singleton.mpr rfl)⟩

/-- C9: every sample `Collect` emits carries exactly as many label values
as its descriptor declares label names (the values are built in the
declared order: [thermostat_id, thermostat_name] for runtime metrics,
those plus [sensor_id, sensor_name, sensor_type] for sensor metrics, a
third mode or hvac-mode label where declared, no labels for fetchTime);
consequently the panic branch of `prometheus.MustNewConstMetric` is
unreachable in every cycle. -/
theorem c9_label_counts (cl : Client) (p : String) (elapsed : ℚ) :
    ∀ s ∈ (Collect (NewEcobeeCollector cl p) elapsed).samples,
      mustNewConstMetricOk s.desc s.labels = true := by
  intro s hs
  rcases h1 : (NewEcobeeCollector cl p).client.getThermostats thermostatsSelection with e | tt
  · rw [Collect_eq_of_err1 _ elapsed e h1] at hs
    simp at hs
  · rcases h2 : (NewEcobeeCollector cl p).client.getThermostatSummary
      (summarySelection (String.intercalate "," (tt.map Thermostat.Identifier))) with e | ts
    · rw [Collect_eq_of_err2 _ elapsed tt e h1 h2] at hs
      simp at hs
    · rw [Collect_eq_of_ok _ elapsed tt ts h1 h2] at hs
      rcases List.mem_cons.mp hs with rfl | hs'
      · simp [mustNewConstMetricOk, NewEcobeeCollector, descs.new]
      · rcases List.mem_append.mp hs' with h | h
        · obtain ⟨l, hl, hsl⟩ := List.mem_flatten.mp h
          obtain ⟨u, _, rfl⟩ := List.mem_map.mp hl
          exact summaryOut_ok cl p u s hsl
        · obtain ⟨l, hl, hsl⟩ := List.mem_flatten.mp h
          obtain ⟨pair, hpair, rfl⟩ := List.mem_map.mp hl
          obtain ⟨u, _, rfl⟩ := List.mem_map.mp hpair
          exact thermostatOut_ok cl p u s hsl

/-- Witness for C9 at the fetchTime sample of a cycle with empty results. -/
theorem c9_label_counts_witness :
    mustNewConstMetricOk (NewEcobeeCollector emptyClient "ecobee").fetchTime [] = true :=
  c9_label_counts emptyClient "ecobee" 1
    ⟨(NewEcobeeCollector emptyClient "ecobee").fetchTime, 1, []⟩
    (by rw [Collect_eq_of_ok (NewEcobeeCollector emptyClient "ecobee") 1 [] [] rfl rfl]
        exact List.mem_cons_self _ _)
